import Mathlib

/-!
# Verification of the capture-batching engine (`capture-requests-msw`)

Shallow embedding of the request-capture core:

* `CapturedRequest`, the two-key sort comparator and the stable sort used by
  `checkpoint()` (`src/src/index.ts`, `RequestCapturer.checkpoint`);
* the `RequestCapturer` class of `src/src/index.ts` as a state-transition
  system (`Capturer` namespace), with the host's timer table made explicit so
  that `setTimeout` / `clearTimeout` bookkeeping is visible;
* the gated implementation (`createRequestsCaptureHandler` of the design
  document, with `pendingResponses` and `waitForCheckpoint`) in the `Gated`
  namespace, including a variant whose user handler may throw (`Except`) and a
  variant whose release callbacks may re-enter and register new pending
  resolvers;
* the per-request body-capture logic of the MSW adapter (`captureRequest`).

Modelling conventions:

* JS `Array.prototype.sort` is required (ES2019) to be a stable sort; a stable
  sort w.r.t. a total preorder has a unique output, so it is embedded as
  `List.insertionSort`, which the kernel can evaluate.
* `String.prototype.localeCompare` is embedded as ordinal (code-unit
  lexicographic) comparison over `String.data`, the reading the repository's
  tests rely on (all compared strings are plain ASCII URLs and method names).
* The user-supplied flush handler is external code; its invocations are
  recorded in a log (`handlerCalls` / `GEvent.handlerCall`) carrying the exact
  argument it was called with.
* Timers: `setTimeout` allocates a fresh id in the host's `activeTimers`
  table, `clearTimeout` removes it; the capturer's `timeoutId` field mirrors
  the source field of the same name.
-/

/-- `CapturedRequest` from `src/src/index.ts`: the value type for one observed
request.  `body` is an optional string (`body?: string`), absent (`none`)
unless a body was captured. -/
structure CapturedRequest where
  method : String
  url : String
  body : Option String
deriving DecidableEq

/-- `String.prototype.localeCompare`, embedded as ordinal comparison on the
underlying character lists: negative when `a` sorts before `b`, `0` when they
are equal, positive otherwise. -/
def localeCompare (a b : String) : Int :=
  if a.data < b.data then -1 else if a.data = b.data then 0 else 1

/-- The two-key comparator passed to `Array.prototype.sort` in
`RequestCapturer.checkpoint` (`src/src/index.ts:74-79`): compare methods when
the urls are equal (`a.url === b.url`), urls otherwise. -/
def requestCompare (a b : CapturedRequest) : Int :=
  if a.url = b.url then localeCompare a.method b.method else localeCompare a.url b.url

/-- `a` may be placed before (or at) `b` by the sort: the comparator is
non-positive on `(a, b)`. -/
def requestLE (a b : CapturedRequest) : Prop := requestCompare a b ≤ 0

instance : DecidableRel requestLE :=
  fun a b => inferInstanceAs (Decidable (requestCompare a b ≤ 0))

/-- `[...this.currentBatch].sort(comparator)`: JS sort is stable, so it is
embedded as insertion sort by `requestLE`. -/
def sortRequests (l : List CapturedRequest) : List CapturedRequest :=
  List.insertionSort requestLE l

theorem String.eq_iff_data_eq (a b : String) : a = b ↔ a.data = b.data := by
  constructor
  · intro h; rw [h]
  · intro h; cases a; cases b; simp only at h; cases h; rfl

theorem localeCompare_nonpos (a b : String) : localeCompare a b ≤ 0 ↔ a.data ≤ b.data := by
  unfold localeCompare
  split_ifs with h1 h2
  · constructor
    · intro _; exact le_of_lt h1
    · intro _; norm_num
  · constructor
    · intro _; exact le_of_eq h2
    · intro _; norm_num
  · constructor
    · intro h; norm_num at h
    · intro h
      rcases lt_or_eq_of_le h with h' | h'
      · exact absurd h' h1
      · exact absurd h' h2

theorem localeCompare_neg_iff (a b : String) : localeCompare a b ≤ -1 ↔ a.data < b.data := by
  unfold localeCompare
  split_ifs with h1 h2
  · constructor
    · intro _; exact h1
    · intro _; norm_num
  · constructor
    · intro h; norm_num at h
    · intro h; exact absurd h2 (ne_of_lt h)
  · constructor
    · intro h; norm_num at h
    · intro h; exact absurd h h1

theorem requestLE_iff (a b : CapturedRequest) :
    requestLE a b ↔
      (a.url = b.url ∧ a.method.data ≤ b.method.data) ∨
      (a.url ≠ b.url ∧ a.url.data < b.url.data) := by
  unfold requestLE requestCompare
  split_ifs with h
  · rw [localeCompare_nonpos]
    constructor
    · intro hm; exact Or.inl ⟨h, hm⟩
    · rintro (⟨-, hm⟩ | ⟨hne, -⟩)
      · exact hm
      · exact absurd h hne
  · constructor
    · intro hcmp
      refine Or.inr ⟨h, ?_⟩
      rcases lt_or_eq_of_le ((localeCompare_nonpos _ _).mp hcmp) with h' | h'
      · exact h'
      · exact absurd ((String.eq_iff_data_eq _ _).mpr h') h
    · rintro (⟨heq, -⟩ | ⟨-, hlt⟩)
      · exact absurd heq h
      · exact (localeCompare_nonpos _ _).mpr (le_of_lt hlt)

instance : IsTotal CapturedRequest requestLE := by
  constructor
  intro a b
  rcases eq_or_ne a.url b.url with h | h
  · rcases le_total a.method.data b.method.data with hm | hm
    · exact Or.inl ((requestLE_iff a b).mpr (Or.inl ⟨h, hm⟩))
    · exact Or.inr ((requestLE_iff b a).mpr (Or.inl ⟨h.symm, hm⟩))
  · rcases lt_trichotomy a.url.data b.url.data with hu | hu | hu
    · exact Or.inl ((requestLE_iff a b).mpr (Or.inr ⟨h, hu⟩))
    · exact absurd ((String.eq_iff_data_eq _ _).mpr hu) h
    · exact Or.inr ((requestLE_iff b a).mpr (Or.inr ⟨h.symm, hu⟩))

instance : IsTrans CapturedRequest requestLE := by
  constructor
  intro a b c hab hbc
  rw [requestLE_iff] at hab hbc ⊢
  rcases hab with ⟨hu1, hm1⟩ | ⟨hu1, hlt1⟩
  · rcases hbc with ⟨hu2, hm2⟩ | ⟨hu2, hlt2⟩
    · exact Or.inl ⟨hu1.trans hu2, le_trans hm1 hm2⟩
    · refine Or.inr ⟨?_, hu1 ▸ hlt2⟩
      intro h
      exact hu2 ((String.eq_iff_data_eq _ _).mpr (hu1 ▸ ((String.eq_iff_data_eq _ _).mp h)))
  · rcases hbc with ⟨hu2, hm2⟩ | ⟨hu2, hlt2⟩
    · refine Or.inr ⟨?_, hu2 ▸ hlt1⟩
      intro h
      exact hu1 ((String.eq_iff_data_eq _ _).mpr ((h ▸ rfl : a.url.data = c.url.data).trans (hu2 ▸ rfl)))
    · refine Or.inr ⟨?_, lt_trans hlt1 hlt2⟩
      intro h
      have hac := lt_trans hlt1 hlt2
      rw [(String.eq_iff_data_eq a.url c.url).mp h] at hac
      exact absurd hac (lt_irrefl _)

namespace Capturer

/-- The mutable state of a `RequestCapturer` instance (`src/src/index.ts:22-31`)
together with the host's timer table.  `currentBatch`, `timeoutId` name the
source fields; `activeTimers` is the set of timers this instance has scheduled
with `setTimeout` and not yet cancelled or consumed; `nextTimerId` is the
host's fresh-id supply; `handlerCalls` logs every invocation of the
user-supplied handler with its argument. -/
structure State where
  currentBatch : List CapturedRequest
  timeoutId : Option Nat
  activeTimers : List Nat
  nextTimerId : Nat
  handlerCalls : List (List CapturedRequest)
deriving DecidableEq

/-- State of a freshly constructed `RequestCapturer`. -/
def init : State :=
  { currentBatch := [], timeoutId := none, activeTimers := [], nextTimerId := 0,
    handlerCalls := [] }

/-- `clearAutoCheckpointTimer` (`src/src/index.ts:48-53`): if a timer handle is
held, `clearTimeout` it and drop the handle. -/
def clearAutoCheckpointTimer (s : State) : State :=
  match s.timeoutId with
  | some id => { s with activeTimers := s.activeTimers.filter (· != id), timeoutId := none }
  | none => s

/-- The `setTimeout` half of `startAutoCheckpointTimer`: schedule a fresh timer
and hold its handle. -/
def armTimer (s : State) : State :=
  { s with timeoutId := some s.nextTimerId,
           activeTimers := s.activeTimers ++ [s.nextTimerId],
           nextTimerId := s.nextTimerId + 1 }

/-- `startAutoCheckpointTimer` (`src/src/index.ts:36-43`): no-op without
`autoCheckpointOptions`; otherwise cancel the held timer, then schedule a new
one.  `auto` is whether `autoCheckpointOptions` was supplied at construction. -/
def startAutoCheckpointTimer (auto : Bool) (s : State) : State :=
  if auto then armTimer (clearAutoCheckpointTimer s) else s

/-- `addRequest` (`src/src/index.ts:59-64`): push the request onto the batch,
then restart the auto-checkpoint timer. -/
def addRequest (auto : Bool) (r : CapturedRequest) (s : State) : State :=
  startAutoCheckpointTimer auto { s with currentBatch := s.currentBatch ++ [r] }

/-- The body of `checkpoint` after the initial `clearAutoCheckpointTimer`
(`src/src/index.ts:73-83`): if the batch is non-empty, invoke the handler with
the sorted copy; then assign a fresh empty batch. -/
def checkpointRest (s : State) : State :=
  let s2 := if s.currentBatch.length > 0 then
      { s with handlerCalls := s.handlerCalls ++ [sortRequests s.currentBatch] }
    else s
  { s2 with currentBatch := [] }

/-- `checkpoint` (`src/src/index.ts:70-84`): clear the timer first, then
process and reset the batch. -/
def checkpoint (s : State) : State := checkpointRest (clearAutoCheckpointTimer s)

/-- The callback passed to `setTimeout` (`src/src/index.ts:40-42`) just calls
`checkpoint`; this is the automatic-checkpoint entry point. -/
def fireAutoCheckpoint (s : State) : State := checkpoint s

/-- A sequence of `addRequest` calls. -/
def observeAll (auto : Bool) (rs : List CapturedRequest) (s : State) : State :=
  rs.foldl (fun t r => addRequest auto r t) s

/-- The held timer handle and the host's live-timer table agree: no timer is
live except the one whose handle is held. -/
def timerInv (s : State) : Prop :=
  s.activeTimers = match s.timeoutId with
                   | some id => [id]
                   | none => []

theorem clear_currentBatch (s : State) :
    (clearAutoCheckpointTimer s).currentBatch = s.currentBatch := by
  cases hs : s.timeoutId <;> simp [clearAutoCheckpointTimer, hs]

theorem clear_handlerCalls (s : State) :
    (clearAutoCheckpointTimer s).handlerCalls = s.handlerCalls := by
  cases hs : s.timeoutId <;> simp [clearAutoCheckpointTimer, hs]

theorem clear_timeoutId (s : State) :
    (clearAutoCheckpointTimer s).timeoutId = none := by
  cases hs : s.timeoutId <;> simp [clearAutoCheckpointTimer, hs]

theorem clear_of_none (s : State) (h : s.timeoutId = none) :
    clearAutoCheckpointTimer s = s := by
  simp [clearAutoCheckpointTimer, h]

theorem clear_activeTimers_of_inv (s : State) (h : timerInv s) :
    (clearAutoCheckpointTimer s).activeTimers = [] := by
  unfold timerInv at h
  cases hs : s.timeoutId <;> rw [hs] at h <;> simp [clearAutoCheckpointTimer, hs, h]

theorem checkpointRest_currentBatch (s : State) : (checkpointRest s).currentBatch = [] := rfl

theorem checkpointRest_timeoutId (s : State) : (checkpointRest s).timeoutId = s.timeoutId := by
  unfold checkpointRest
  split <;> rfl

theorem checkpointRest_activeTimers (s : State) :
    (checkpointRest s).activeTimers = s.activeTimers := by
  unfold checkpointRest
  split <;> rfl

theorem checkpointRest_handlerCalls (s : State) :
    (checkpointRest s).handlerCalls =
      if s.currentBatch.length > 0 then s.handlerCalls ++ [sortRequests s.currentBatch]
      else s.handlerCalls := by
  unfold checkpointRest
  split <;> simp_all

theorem checkpointRest_of_empty (s : State) (h : s.currentBatch = []) :
    checkpointRest s = s := by
  obtain ⟨b, t1, t2, t3, hc⟩ := s
  simp only at h
  subst h
  rfl

theorem checkpoint_currentBatch (s : State) : (checkpoint s).currentBatch = [] := rfl

theorem checkpoint_timeoutId (s : State) : (checkpoint s).timeoutId = none := by
  unfold checkpoint
  rw [checkpointRest_timeoutId, clear_timeoutId]

theorem checkpoint_handlerCalls (s : State) :
    (checkpoint s).handlerCalls =
      if s.currentBatch.length > 0 then s.handlerCalls ++ [sortRequests s.currentBatch]
      else s.handlerCalls := by
  unfold checkpoint
  rw [checkpointRest_handlerCalls, clear_currentBatch, clear_handlerCalls]

theorem addRequest_currentBatch (auto : Bool) (r : CapturedRequest) (s : State) :
    (addRequest auto r s).currentBatch = s.currentBatch ++ [r] := by
  unfold addRequest startAutoCheckpointTimer armTimer
  split
  · rw [clear_currentBatch]
  · rfl

theorem addRequest_handlerCalls (auto : Bool) (r : CapturedRequest) (s : State) :
    (addRequest auto r s).handlerCalls = s.handlerCalls := by
  unfold addRequest startAutoCheckpointTimer armTimer
  split
  · rw [clear_handlerCalls]
  · rfl

theorem observeAll_currentBatch (auto : Bool) (rs : List CapturedRequest) (s : State) :
    (observeAll auto rs s).currentBatch = s.currentBatch ++ rs := by
  induction rs generalizing s with
  | nil => simp [observeAll]
  | cons r rest ih =>
    show (observeAll auto rest (addRequest auto r s)).currentBatch = _
    rw [ih, addRequest_currentBatch]
    simp

theorem observeAll_handlerCalls (auto : Bool) (rs : List CapturedRequest) (s : State) :
    (observeAll auto rs s).handlerCalls = s.handlerCalls := by
  induction rs generalizing s with
  | nil => rfl
  | cons r rest ih =>
    show (observeAll auto rest (addRequest auto r s)).handlerCalls = _
    rw [ih, addRequest_handlerCalls]

end Capturer

namespace Capturer

def reqA : CapturedRequest := { method := "GET", url := "https://x/a", body := none }

def reqB : CapturedRequest := { method := "GET", url := "https://x/b", body := none }

def reqTest : CapturedRequest :=
  { method := "GET", url := "https://api.example.com/test", body := none }

def sampleState : State :=
  { currentBatch := [reqB, reqA], timeoutId := none, activeTimers := [],
    nextTimerId := 0, handlerCalls := [] }

/-- Claim C2: on a non-empty batch, `checkpoint()` passes the user handler
exactly the arrival-ordered batch sorted stably by the two-key comparator —
primary key `url` under ordinal comparison, secondary key `method` under the
same comparison when urls are equal — with entries of identical url and method
keeping their arrival order. -/
theorem checkpoint_delivers_stable_two_key_sort (s : State) (h : s.currentBatch ≠ []) :
    (checkpoint s).handlerCalls = s.handlerCalls ++ [sortRequests s.currentBatch] ∧
    List.Perm (sortRequests s.currentBatch) s.currentBatch ∧
    List.Sorted requestLE (sortRequests s.currentBatch) ∧
    (∀ a b : CapturedRequest,
      requestLE a b ↔
        a.url.data < b.url.data ∨ (a.url = b.url ∧ a.method.data ≤ b.method.data)) ∧
    (∀ a b : CapturedRequest, a.url = b.url → a.method = b.method →
      List.Sublist [a, b] s.currentBatch →
      List.Sublist [a, b] (sortRequests s.currentBatch)) := by
  refine ⟨?_, List.perm_insertionSort _ _, List.sorted_insertionSort _ _, ?_, ?_⟩
  · rw [checkpoint_handlerCalls]
    have hl : s.currentBatch.length > 0 := List.length_pos.mpr h
    simp [hl]
  · intro a b
    rw [requestLE_iff]
    constructor
    · rintro (⟨he, hm⟩ | ⟨-, hlt⟩)
      · exact Or.inr ⟨he, hm⟩
      · exact Or.inl hlt
    · rintro (hlt | ⟨he, hm⟩)
      · refine Or.inr ⟨?_, hlt⟩
        intro he
        rw [(String.eq_iff_data_eq _ _).mp he] at hlt
        exact absurd hlt (lt_irrefl _)
      · exact Or.inl ⟨he, hm⟩
  · intro a b hu hm hsub
    exact List.pair_sublist_insertionSort
      ((requestLE_iff a b).mpr (Or.inl ⟨hu, le_of_eq (by rw [hm])⟩)) hsub

/-- Witness for C2: two requests arriving in reverse url order are delivered
sorted. -/
theorem checkpoint_delivers_stable_two_key_sort_witness :
    sampleState.currentBatch ≠ [] ∧
    (checkpoint sampleState).handlerCalls =
      sampleState.handlerCalls ++ [sortRequests sampleState.currentBatch] ∧
    sortRequests sampleState.currentBatch = [reqA, reqB] :=
  ⟨by decide, (checkpoint_delivers_stable_two_key_sort sampleState (by decide)).1, by decide⟩

/-- Claim C4: N `addRequest` calls (N ≥ 1) followed by one `checkpoint()`
invoke the handler exactly once with exactly N items forming a permutation of
the observed requests — no loss, duplication, or mutation. -/
theorem completeness (auto : Bool) (rs : List CapturedRequest) (h : rs ≠ []) :
    (checkpoint (observeAll auto rs init)).handlerCalls = [sortRequests rs] ∧
    (sortRequests rs).length = rs.length ∧
    List.Perm (sortRequests rs) rs := by
  have hb : (observeAll auto rs init).currentBatch = rs := by
    rw [observeAll_currentBatch]
    rfl
  refine ⟨?_, (List.perm_insertionSort _ _).length_eq, List.perm_insertionSort _ _⟩
  rw [checkpoint_handlerCalls, hb, observeAll_handlerCalls]
  have hl : rs.length > 0 := List.length_pos.mpr h
  simp [init, hl]

/-- Witness for C4 on a concrete two-request run. -/
theorem completeness_witness :
    ([reqB, reqA] : List CapturedRequest) ≠ [] ∧
    (checkpoint (observeAll true [reqB, reqA] init)).handlerCalls =
      [sortRequests [reqB, reqA]] ∧
    (checkpoint (observeAll true [reqB, reqA] init)).handlerCalls = [[reqA, reqB]] := by
  refine ⟨by decide, (completeness true [reqB, reqA] (by decide)).1, ?_⟩
  rw [(completeness true [reqB, reqA] (by decide)).1]
  decide

/-- Claim C5: a checkpoint — manual or fired by the auto-checkpoint timer —
over an empty batch never invokes the user handler. -/
theorem empty_batch_no_handler (s : State) (h : s.currentBatch = []) :
    (checkpoint s).handlerCalls = s.handlerCalls ∧
    (fireAutoCheckpoint s).handlerCalls = s.handlerCalls := by
  have hc := checkpoint_handlerCalls s
  rw [h] at hc
  simp at hc
  exact ⟨hc, hc⟩

/-- Witness for C5 at the freshly constructed state. -/
theorem empty_batch_no_handler_witness :
    init.currentBatch = [] ∧ (checkpoint init).handlerCalls = init.handlerCalls :=
  ⟨rfl, (empty_batch_no_handler init rfl).1⟩

theorem timerInv_arm (t : State) (h1 : t.activeTimers = []) : timerInv (armTimer t) := by
  unfold timerInv armTimer
  simp [h1]

theorem timerInv_addRequest (auto : Bool) (r : CapturedRequest) (s : State)
    (h : timerInv s) : timerInv (addRequest auto r s) := by
  unfold addRequest startAutoCheckpointTimer
  split
  · exact timerInv_arm _ (clear_activeTimers_of_inv _ h)
  · exact h

theorem timerInv_checkpoint (s : State) (h : timerInv s) : timerInv (checkpoint s) := by
  unfold checkpoint timerInv
  rw [checkpointRest_timeoutId, checkpointRest_activeTimers, clear_timeoutId,
    clear_activeTimers_of_inv s h]

theorem checkpoint_activeTimers_of_inv (s : State) (h : timerInv s) :
    (checkpoint s).activeTimers = [] := by
  unfold checkpoint
  rw [checkpointRest_activeTimers, clear_activeTimers_of_inv s h]

theorem length_le_one_of_inv (s : State) (h : timerInv s) : s.activeTimers.length ≤ 1 := by
  unfold timerInv at h
  cases hs : s.timeoutId <;> rw [hs] at h <;> simp [h]

/-- Claim C7: at most one auto-checkpoint timer is outstanding at any time;
`addRequest` rearms by cancel-then-reschedule and `checkpoint` clears the
timer as its first action. -/
theorem single_timer_discipline (auto : Bool) (r : CapturedRequest) (s : State)
    (h : timerInv s) :
    timerInv (addRequest auto r s) ∧
    (addRequest auto r s).activeTimers.length ≤ 1 ∧
    timerInv (checkpoint s) ∧
    (checkpoint s).activeTimers.length ≤ 1 ∧
    (checkpoint s).timeoutId = none ∧
    (∀ t : State, startAutoCheckpointTimer true t = armTimer (clearAutoCheckpointTimer t)) ∧
    (∀ t : State, checkpoint t = checkpointRest (clearAutoCheckpointTimer t)) :=
  ⟨timerInv_addRequest auto r s h,
   length_le_one_of_inv _ (timerInv_addRequest auto r s h),
   timerInv_checkpoint s h,
   length_le_one_of_inv _ (timerInv_checkpoint s h),
   checkpoint_timeoutId s,
   fun _ => rfl,
   fun _ => rfl⟩

/-- Witness for C7 from the initial state. -/
theorem single_timer_discipline_witness :
    timerInv init ∧
    timerInv (addRequest true reqA init) ∧
    (checkpoint init).timeoutId = none :=
  ⟨rfl, (single_timer_discipline true reqA init rfl).1,
   (single_timer_discipline true reqA init rfl).2.2.2.2.1⟩

/-- Claim C8: `checkpoint` is idempotent on the capturer state — a second
checkpoint with no intervening observation is a complete no-op. -/
theorem checkpoint_idempotent (s : State) : checkpoint (checkpoint s) = checkpoint s := by
  have h1 : clearAutoCheckpointTimer (checkpoint s) = checkpoint s :=
    clear_of_none _ (checkpoint_timeoutId s)
  show checkpointRest (clearAutoCheckpointTimer (checkpoint s)) = checkpoint s
  rw [h1]
  exact checkpointRest_of_empty _ (checkpoint_currentBatch s)

/-- Claim C3 (code bug): `RequestCapturer` in `src/src/index.ts` has no
`reset()` although `index.test.ts:535-569` calls it; in the state the test
reaches (one request observed, timer armed) there is no operation that
discards the batch and cancels the timer, so the armed timer later fires
`checkpoint` and the handler receives the batch the test expects discarded. -/
theorem missing_reset_leaves_timer_armed :
    (addRequest true reqTest init).timeoutId = some 0 ∧
    (addRequest true reqTest init).activeTimers = [0] ∧
    (addRequest true reqTest init).currentBatch = [reqTest] ∧
    (fireAutoCheckpoint (addRequest true reqTest init)).handlerCalls = [[reqTest]] :=
  ⟨rfl, rfl, rfl, rfl⟩

end Capturer

/-- The methods treated as body-carrying by the MSW adapter
(`src/src/index.ts:100`). -/
def bodyCarryingMethods : List String := ["POST", "PUT", "PATCH"]

/-- The inbound request as the adapter sees it (`src/src/index.ts:93-107`):
`hasBody` is the truthiness of `request.body`; `bodyText` is the outcome of
`request.clone().text()` — `some` on success, `none` when it throws. -/
structure JsRequest where
  method : String
  url : String
  hasBody : Bool
  bodyText : Option String
deriving DecidableEq

/-- The `CapturedRequest` the adapter builds in `createRequestsCaptureHandler`
(`src/src/index.ts:94-107`): method and url always copied; body attached only
when `request.body` is truthy, the method is body-carrying, and the text read
succeeded (a read error is swallowed, leaving body absent). -/
def captureRequest (req : JsRequest) : CapturedRequest :=
  let base : CapturedRequest := { method := req.method, url := req.url, body := none }
  if req.hasBody && bodyCarryingMethods.contains req.method then
    match req.bodyText with
    | some b => { base with body := some b }
    | none => base
  else base

theorem mem_bodyCarryingMethods (m : String) :
    bodyCarryingMethods.contains m = true ↔ (m = "POST" ∨ m = "PUT" ∨ m = "PATCH") := by
  simp [bodyCarryingMethods, List.contains]

theorem captureRequest_body (req : JsRequest) :
    (captureRequest req).body =
      if req.hasBody && bodyCarryingMethods.contains req.method then req.bodyText
      else none := by
  unfold captureRequest
  split
  · cases hb : req.bodyText <;> simp [hb]
  · rfl

/-- Claim C9: the captured `body` is present exactly when the observed method
is POST, PUT, or PATCH, the request carried a body, and its text was obtained;
in every other case it is absent, and when present it is the obtained text
verbatim (an empty string is present, not absent). -/
theorem body_presence (req : JsRequest) :
    ((captureRequest req).body.isSome ↔
      ((req.method = "POST" ∨ req.method = "PUT" ∨ req.method = "PATCH") ∧
        req.hasBody = true ∧ req.bodyText.isSome)) ∧
    (∀ b, (captureRequest req).body = some b → req.bodyText = some b) ∧
    (captureRequest req).method = req.method ∧
    (captureRequest req).url = req.url ∧
    (captureRequest
      { method := "POST", url := "https://x/d", hasBody := true,
        bodyText := some "" }).body = some "" := by
  refine ⟨?_, ?_, ?_, ?_, by decide⟩
  · rw [captureRequest_body]
    by_cases h : (req.hasBody && bodyCarryingMethods.contains req.method) = true
    · rw [if_pos h]
      rw [Bool.and_eq_true] at h
      constructor
      · intro hs
        exact ⟨(mem_bodyCarryingMethods req.method).mp h.2, h.1, hs⟩
      · intro hc
        exact hc.2.2
    · rw [if_neg h]
      rw [Bool.and_eq_true] at h
      constructor
      · intro hs
        simp at hs
      · intro hc
        exact absurd ⟨hc.2.1, (mem_bodyCarryingMethods req.method).mpr hc.1⟩ h
  · intro b hb
    rw [captureRequest_body] at hb
    by_cases h : (req.hasBody && bodyCarryingMethods.contains req.method) = true
    · rw [if_pos h] at hb
      exact hb
    · rw [if_neg h] at hb
      exact absurd hb (by simp)
  · unfold captureRequest
    split
    · cases hb : req.bodyText <;> simp [hb]
    · rfl
  · unfold captureRequest
    split
    · cases hb : req.bodyText <;> simp [hb]
    · rfl

/-- Witness for C9: a GET with body text available still captures no body,
while a POST does. -/
theorem body_presence_witness :
    ¬ ((captureRequest
        { method := "GET", url := "https://x/a", hasBody := true,
          bodyText := some "ab" }).body.isSome) ∧
    (captureRequest
        { method := "POST", url := "https://x/d", hasBody := true,
          bodyText := some "ab" }).body = some "ab" := by
  constructor
  · intro hs
    have h := (body_presence
      { method := "GET", url := "https://x/a", hasBody := true,
        bodyText := some "ab" }).1.mp hs
    rcases h with ⟨hm, -, -⟩
    rcases hm with hm | hm | hm <;> simp at hm
  · decide

namespace Gated

/-- Observable events of the gated capturer: the user handler being invoked
with a sorted batch, and a pending resolver (`resolve`) being invoked. -/
inductive GEvent where
  | handlerCall (requests : List CapturedRequest)
  | release (id : Nat)
deriving DecidableEq

/-- State of the gated `createRequestsCaptureHandler` closure (design document,
`currentBatch` / `timeoutId` / `pendingResponses` locals): as in
`Capturer.State` plus the FIFO queue of pending release callbacks
(`pendingResponses`, each represented by the id assigned at registration,
supplied by `nextResolverId`) and the event log. -/
structure State where
  currentBatch : List CapturedRequest
  timeoutId : Option Nat
  activeTimers : List Nat
  nextTimerId : Nat
  pendingResponses : List Nat
  nextResolverId : Nat
  events : List GEvent
deriving DecidableEq

/-- State right after `createRequestsCaptureHandler` returns. -/
def init : State :=
  { currentBatch := [], timeoutId := none, activeTimers := [], nextTimerId := 0,
    pendingResponses := [], nextResolverId := 0, events := [] }

/-- `clearAutoCheckpointTimer` of the closure: same logic as the class
version. -/
def clearAutoCheckpointTimer (s : State) : State :=
  match s.timeoutId with
  | some id => { s with activeTimers := s.activeTimers.filter (· != id), timeoutId := none }
  | none => s

/-- The `setTimeout` half of the closure's `startAutoCheckpointTimer`. -/
def armTimer (s : State) : State :=
  { s with timeoutId := some s.nextTimerId,
           activeTimers := s.activeTimers ++ [s.nextTimerId],
           nextTimerId := s.nextTimerId + 1 }

/-- `startAutoCheckpointTimer` of the closure; `cfg` models the
`CheckpointOptions` argument: `none` when absent, `some w` when present with
`waitForCheckpoint` flag `w`. -/
def startAutoCheckpointTimer (cfg : Option Bool) (s : State) : State :=
  if cfg.isSome then armTimer (clearAutoCheckpointTimer s) else s

/-- The release phase of `checkpoint`: `responses.forEach(resolve =>
resolve())` over the swapped-out queue.  Each `resolve()` is recorded as a
`release` event; `eff` models whatever the released continuation does to the
capturer next (nothing, in the plain model). -/
def releaseLoop (eff : Nat → State → State) : List Nat → State → State
  | [], s => s
  | id :: rest, s =>
      releaseLoop eff rest (eff id { s with events := s.events ++ [GEvent.release id] })

/-- The closure's `checkpoint`: clear the timer; if the batch is non-empty,
invoke the handler with the sorted copy; empty the batch; swap out
`pendingResponses` and invoke every callback of the old queue. -/
def checkpointWith (eff : Nat → State → State) (s : State) : State :=
  let s1 := clearAutoCheckpointTimer s
  let s2 := if s1.currentBatch.length > 0 then
      { s1 with events := s1.events ++ [GEvent.handlerCall (sortRequests s1.currentBatch)] }
    else s1
  let s3 := { s2 with currentBatch := [] }
  let pend := s3.pendingResponses
  let s4 := { s3 with pendingResponses := [] }
  releaseLoop eff pend s4

/-- `checkpoint` with released continuations that do nothing further. -/
def checkpoint (s : State) : State := checkpointWith (fun _ t => t) s

/-- A released continuation that immediately registers `regs id` new pending
resolvers (e.g. a new gated observation arriving while continuations
resume). -/
def registeringEff (regs : Nat → List Nat) : Nat → State → State :=
  fun id t => { t with pendingResponses := t.pendingResponses ++ regs id }

/-- The closure's `requestHandler`: capture the request, push it onto the
batch, restart the timer, and if `waitForCheckpoint` is enabled register a
pending release callback before yielding. -/
def observe (cfg : Option Bool) (req : JsRequest) (s : State) : State :=
  let s1 := { s with currentBatch := s.currentBatch ++ [captureRequest req] }
  let s2 := startAutoCheckpointTimer cfg s1
  if cfg = some true then
    { s2 with pendingResponses := s2.pendingResponses ++ [s2.nextResolverId],
              nextResolverId := s2.nextResolverId + 1 }
  else s2

/-- The closure's `checkpoint` when the user handler may throw, which the
source does not guard against: `handler` returning `.error` models a thrown
exception, and the function aborts exactly where the JS call aborts — the
timer is already cleared and the handler invocation is on the log, but the
batch reset and the whole release phase are skipped; the error carries the
state as left behind. -/
def checkpointExc (handler : List CapturedRequest → Except String Unit) (s : State) :
    Except (String × State) State :=
  let s1 := clearAutoCheckpointTimer s
  if s1.currentBatch.length > 0 then
    match handler (sortRequests s1.currentBatch) with
    | .error e =>
        .error (e, { s1 with
          events := s1.events ++ [GEvent.handlerCall (sortRequests s1.currentBatch)] })
    | .ok _ =>
        let s2 := { s1 with
          events := s1.events ++ [GEvent.handlerCall (sortRequests s1.currentBatch)] }
        let s3 := { s2 with currentBatch := [] }
        let pend := s3.pendingResponses
        let s4 := { s3 with pendingResponses := [] }
        .ok (releaseLoop (fun _ t => t) pend s4)
  else
    let s3 := { s1 with currentBatch := [] }
    let pend := s3.pendingResponses
    let s4 := { s3 with pendingResponses := [] }
    .ok (releaseLoop (fun _ t => t) pend s4)

theorem gated_clear_currentBatch (s : State) :
    (clearAutoCheckpointTimer s).currentBatch = s.currentBatch := by
  cases hs : s.timeoutId <;> simp [clearAutoCheckpointTimer, hs]

theorem gated_clear_pending (s : State) :
    (clearAutoCheckpointTimer s).pendingResponses = s.pendingResponses := by
  cases hs : s.timeoutId <;> simp [clearAutoCheckpointTimer, hs]

theorem gated_clear_events (s : State) :
    (clearAutoCheckpointTimer s).events = s.events := by
  cases hs : s.timeoutId <;> simp [clearAutoCheckpointTimer, hs]

theorem gated_clear_timeoutId (s : State) :
    (clearAutoCheckpointTimer s).timeoutId = none := by
  cases hs : s.timeoutId <;> simp [clearAutoCheckpointTimer, hs]

theorem releaseLoop_id (pend : List Nat) (s : State) :
    releaseLoop (fun _ t => t) pend s =
      { s with events := s.events ++ pend.map GEvent.release } := by
  induction pend generalizing s with
  | nil => simp [releaseLoop]
  | cons id rest ih =>
    show releaseLoop _ rest { s with events := s.events ++ [GEvent.release id] } = _
    rw [ih]
    simp

theorem releaseLoop_registering (regs : Nat → List Nat) (pend : List Nat) (s : State) :
    releaseLoop (registeringEff regs) pend s =
      { s with events := s.events ++ pend.map GEvent.release,
               pendingResponses := s.pendingResponses ++ (pend.map regs).flatten } := by
  induction pend generalizing s with
  | nil => simp [releaseLoop]
  | cons id rest ih =>
    show releaseLoop _ rest
        (registeringEff regs id { s with events := s.events ++ [GEvent.release id] }) = _
    rw [ih]
    simp [registeringEff]

theorem gated_checkpointWith_eq (eff : Nat → State → State) (s : State) :
    checkpointWith eff s =
      releaseLoop eff s.pendingResponses
        { currentBatch := [],
          timeoutId := none,
          activeTimers := (clearAutoCheckpointTimer s).activeTimers,
          nextTimerId := s.nextTimerId,
          pendingResponses := [],
          nextResolverId := s.nextResolverId,
          events := s.events ++
            (if s.currentBatch.length > 0 then
              [GEvent.handlerCall (sortRequests s.currentBatch)]
            else []) } := by
  obtain ⟨b, tid, act, nt, pr, nr, ev⟩ := s
  cases tid <;> unfold checkpointWith clearAutoCheckpointTimer <;> dsimp only <;>
    split <;> simp

end Gated

namespace Gated

/-- Claim C6: with the gate enabled, every pending release callback is invoked
exactly once, in FIFO registration order, as the last step of `checkpoint()` —
strictly after the user-handler invocation for that checkpoint — and the
release phase runs even when the batch is empty; registration appends to the
queue in arrival order. -/
theorem gate_release_fifo_after_handler (s : State) :
    (checkpoint s).events =
      s.events ++
        (if s.currentBatch.length > 0 then [GEvent.handlerCall (sortRequests s.currentBatch)]
         else []) ++
        s.pendingResponses.map GEvent.release ∧
    (checkpoint s).pendingResponses = [] ∧
    (∀ (req : JsRequest) (t : State),
      (observe (some true) req t).pendingResponses =
        t.pendingResponses ++ [t.nextResolverId]) := by
  refine ⟨?_, ?_, ?_⟩
  · simp [checkpoint, gated_checkpointWith_eq, releaseLoop_id]
  · simp [checkpoint, gated_checkpointWith_eq, releaseLoop_id]
  · intro req t
    obtain ⟨b, tid, act, nt, pr, nr, ev⟩ := t
    cases tid <;> rfl

/-- Claim C10: release callbacks registered during the release phase of a
checkpoint (modelled by resumed continuations that register `regs id` fresh
resolvers) are never invoked by that same checkpoint — the queue is swapped
out before any callback runs, the releases are exactly the entry queue in
order, and every new registration sits in the new queue afterwards. -/
theorem registrations_during_release_wait (regs : Nat → List Nat) (s : State) :
    (checkpointWith (registeringEff regs) s).events =
      s.events ++
        (if s.currentBatch.length > 0 then [GEvent.handlerCall (sortRequests s.currentBatch)]
         else []) ++
        s.pendingResponses.map GEvent.release ∧
    (checkpointWith (registeringEff regs) s).pendingResponses =
      (s.pendingResponses.map regs).flatten := by
  rw [gated_checkpointWith_eq, releaseLoop_registering]
  constructor <;> simp

/-- A user handler that always throws. -/
def throwingHandler : List CapturedRequest → Except String Unit := fun _ => .error "boom"

def greq : CapturedRequest := { method := "GET", url := "https://x/a", body := none }

/-- A state with one batched request, an armed timer, and one pending gated
continuation. -/
def gatedSample : State :=
  { currentBatch := [greq], timeoutId := some 0, activeTimers := [0], nextTimerId := 1,
    pendingResponses := [0], nextResolverId := 1, events := [] }

/-- The state the throwing checkpoint leaves behind at `gatedSample`: timer
cleared, handler invoked, but batch and pending queue untouched. -/
def gatedSampleAfter : State :=
  { currentBatch := [greq], timeoutId := none, activeTimers := [], nextTimerId := 1,
    pendingResponses := [0], nextResolverId := 1,
    events := [GEvent.handlerCall [greq]] }

/-- Counterexample to claim C1 as stated: at `gatedSample` with a throwing
handler, `checkpoint` propagates the exception while the batch is NOT cleared
and the pending gated continuation is NOT released — the source has no
try/finally around the handler call. -/
theorem handler_throw_skips_clear_and_release :
    checkpointExc throwingHandler gatedSample = .error ("boom", gatedSampleAfter) ∧
    gatedSampleAfter.currentBatch = [greq] ∧
    gatedSampleAfter.pendingResponses = [0] := by
  exact ⟨rfl, rfl, rfl⟩

/-- Claim C1 as amended: if the user handler throws during `checkpoint()`, the
exception propagates to the caller un-swallowed and the auto-checkpoint timer
has already been cleared, but the batch is NOT cleared and pending gated
continuations are NOT released — those steps are skipped. -/
theorem handler_throw_propagates_unswallowed
    (handler : List CapturedRequest → Except String Unit) (s : State) (e : String)
    (hne : s.currentBatch ≠ [])
    (hthrow : handler (sortRequests s.currentBatch) = .error e) :
    ∃ t, checkpointExc handler s = .error (e, t) ∧
      t.currentBatch = s.currentBatch ∧
      t.pendingResponses = s.pendingResponses ∧
      t.timeoutId = none := by
  unfold checkpointExc
  dsimp only
  rw [gated_clear_currentBatch, if_pos (List.length_pos.mpr hne), hthrow]
  exact ⟨_, rfl, rfl, gated_clear_pending s, gated_clear_timeoutId s⟩

/-- Witness for the amended C1 at `gatedSample` with the throwing handler. -/
theorem handler_throw_propagates_unswallowed_witness :
    gatedSample.currentBatch ≠ [] ∧
    (∃ t, checkpointExc throwingHandler gatedSample = .error ("boom", t) ∧
      t.currentBatch = gatedSample.currentBatch ∧
      t.pendingResponses = gatedSample.pendingResponses ∧
      t.timeoutId = none) :=
  ⟨by decide,
   handler_throw_propagates_unswallowed throwingHandler gatedSample "boom" (by decide) rfl⟩

end Gated
